import Mathlib

/-!
Shallow embedding of the session-lifecycle monitor of the GitHub-issues /
Devin integration backend (src/backend/main.py and src/backend/devin_client.py),
with theorems settling the specification claims about it.
-/

namespace DevinDemo

/-! ## Character-level primitives

The scanning in `extract_action_plan_and_confidence` uses Python's
`in` (substring), `split`, `strip`, `upper`/`lower` and `re.search(r'(\d+)')`.
They are implemented here by structural recursion over the character list of
a `String` (so that every theorem below evaluates inside the kernel), with
the semantics of the corresponding Python operation on ASCII text. -/

/-- Prefix test `pat.isPrefixOf cs`, structurally. -/
def listStartsWith : List Char → List Char → Bool
  | [], _ => true
  | _ :: _, [] => false
  | p :: ps, c :: cs => p == c && listStartsWith ps cs

/-- Occurrence test for Python `pat in s` (non-empty `pat`). -/
def listContains (pat : List Char) : List Char → Bool
  | [] => listStartsWith pat []
  | c :: cs => listStartsWith pat (c :: cs) || listContains pat cs

/-- Python `pat in s` substring test. -/
def strContains (s pat : String) : Bool := listContains pat.data s.data

/-- Python `s.split(sep)` for a one-character separator, structurally. -/
def splitOnChar (sep : Char) : List Char → List (List Char)
  | [] => [[]]
  | c :: rest =>
    if c == sep then [] :: splitOnChar sep rest
    else
      match splitOnChar sep rest with
      | h :: t => (c :: h) :: t
      | [] => [[c]]

/-- Python `content.split('\n')`. -/
def strLines (s : String) : List String := (splitOnChar '\n' s.data).map String.mk

/-- Python `line.split(":")[-1]`. -/
def lastAfterColon (line : String) : String :=
  String.mk ((splitOnChar ':' line.data).getLastD [])

/-- Python `s.strip()` (ASCII whitespace). -/
def strTrim (s : String) : String :=
  String.mk (((s.data.dropWhile Char.isWhitespace).reverse.dropWhile
    Char.isWhitespace).reverse)

/-- Python `s.upper()` (ASCII). -/
def strUpper (s : String) : String := String.mk (s.data.map Char.toUpper)

/-- Python `s.lower()` (ASCII). -/
def strLower (s : String) : String := String.mk (s.data.map Char.toLower)

/-- Python `'\n'.join(plan_lines)`. -/
def joinNewline : List String → String
  | [] => ""
  | [l] => l
  | l :: rest => l ++ "\n" ++ joinNewline rest

/-! ## Result extractor (devin_client.py, extract_action_plan_and_confidence) -/

/-- Python `re.search(r'(\d+)', text)`: the first maximal run of decimal
digits in the character list, if any. -/
def firstDigitRun : List Char → Option (List Char)
  | [] => none
  | c :: rest =>
    if c.isDigit then some (c :: rest.takeWhile (fun d => d.isDigit))
    else firstDigitRun rest

/-- Python `int(...)` on a run of digits. -/
def digitsToNat (cs : List Char) : Nat :=
  cs.foldl (fun n c => 10 * n + (c.toNat - 48)) 0

/-- Python `line.split(":")[-1].strip()` followed by `re.search(r'(\d+)', ...)` and
`int(match.group(1))` in the confidence branch of the line loop. -/
def parseConfidence (line : String) : Option Nat :=
  (firstDigitRun (strTrim (lastAfterColon line)).data).map digitsToNat

/-- Test `"ACTION PLAN:" in line.upper()`. -/
def isPlanMarkerLine (line : String) : Bool :=
  strContains (strUpper line) "ACTION PLAN:"

/-- Test `"CONFIDENCE SCORE:" in line.upper() or "CONFIDENCE:" in line.upper()`. -/
def isConfMarkerLine (line : String) : Bool :=
  strContains (strUpper line) "CONFIDENCE SCORE:"
    || strContains (strUpper line) "CONFIDENCE:"

/-- The three mutable locals of the line loop in
`extract_action_plan_and_confidence`: `plan_started`, `plan_lines`, and the
`confidence_score` accumulator shared across messages. -/
structure LineState where
  plan_started : Bool
  plan_lines : List String
  confidence_score : Option Nat
deriving DecidableEq

/-- One iteration of `for line in lines` in
`extract_action_plan_and_confidence`: the plan marker restarts the block and
is skipped; a confidence marker ends the block and updates the score when a
digit run parses; otherwise a non-blank line inside a block is appended,
trimmed. -/
def processLine (st : LineState) (line : String) : LineState :=
  if isPlanMarkerLine line then
    { st with plan_started := true }
  else if isConfMarkerLine line then
    { plan_started := false
      plan_lines := st.plan_lines
      confidence_score :=
        match parseConfidence line with
        | some n => some n
        | none => st.confidence_score }
  else if st.plan_started && strTrim line != "" then
    { st with plan_lines := st.plan_lines ++ [strTrim line] }
  else st

/-- The two accumulators of the message loop: `action_plan` and
`confidence_score`. -/
structure ExtractState where
  action_plan : Option String
  confidence_score : Option Nat
deriving DecidableEq

/-- A transcript entry as the extractor reads it: `message.get("type")` and
`message.get("message", "")`. -/
structure Message where
  type : String
  message : String
deriving DecidableEq

/-- One iteration of `for message in messages`: only a `devin_message` whose
content contains `ACTION PLAN:` (case-insensitive) is scanned; `plan_started`
and `plan_lines` restart per message while `confidence_score` carries over;
the plan is overwritten only when the scan produced non-blank lines. -/
def processMessage (st : ExtractState) (m : Message) : ExtractState :=
  if m.type == "devin_message" && strContains (strUpper m.message) "ACTION PLAN:" then
    let ls := (strLines m.message).foldl processLine
      { plan_started := false, plan_lines := [], confidence_score := st.confidence_score }
    { action_plan :=
        if ls.plan_lines != [] then some (joinNewline ls.plan_lines)
        else st.action_plan
      confidence_score := ls.confidence_score }
  else st

/-- The method `DevinClient.extract_action_plan_and_confidence`, as a function of the
`messages` list of the session details. -/
def extract_action_plan_and_confidence (messages : List Message) :
    Option String × Option Nat :=
  let st := messages.foldl processMessage
    { action_plan := none, confidence_score := none }
  (st.action_plan, st.confidence_score)

/-! Componentwise views of the line loop, used to reason about the fold:
the `(plan_started, plan_lines)` component of `processLine` never reads
`confidence_score`, and vice versa. -/

/-- The `(plan_started, plan_lines)` component of one line-loop iteration. -/
def planStep : Bool × List String → String → Bool × List String :=
  fun bl line =>
    if isPlanMarkerLine line then (true, bl.2)
    else if isConfMarkerLine line then (false, bl.2)
    else if bl.1 && strTrim line != "" then (bl.1, bl.2 ++ [strTrim line])
    else bl

/-- The `confidence_score` component of one line-loop iteration. -/
def confStep (c : Option Nat) (line : String) : Option Nat :=
  if isPlanMarkerLine line then c
  else if isConfMarkerLine line then
    match parseConfidence line with
    | some n => some n
    | none => c
  else c

/-- The plan lines a single message contributes: non-empty only for a
`devin_message` containing the plan marker. -/
def msgPlanLines (m : Message) : List String :=
  if m.type == "devin_message" && strContains (strUpper m.message) "ACTION PLAN:" then
    ((strLines m.message).foldl planStep (false, [])).2
  else []

/-- The confidence a single message parses when scanned with no prior score. -/
def msgConfFresh (m : Message) : Option Nat :=
  if m.type == "devin_message" && strContains (strUpper m.message) "ACTION PLAN:" then
    (strLines m.message).foldl confStep none
  else none

/-! ## Session store (main.py: init_db schema and the SQL statements) -/

/-- One row of `issue_sessions` as created by `init_db`: the only constraint
is `id INTEGER PRIMARY KEY AUTOINCREMENT`; `issue_number` and
`devin_session_id` carry no UNIQUE constraint. Timestamps are omitted: no
claim reads them. -/
structure SessionRecord where
  id : Nat
  issue_number : Int
  issue_title : String
  devin_session_id : String
  action_plan : Option String
  confidence_score : Option Nat
  status : String
deriving DecidableEq

/-- SQL `UPDATE issue_sessions SET status = ? WHERE devin_session_id = ?`. -/
def updateStatus (db : List SessionRecord) (sid status : String) :
    List SessionRecord :=
  db.map fun r =>
    if r.devin_session_id == sid then { r with status := status } else r

/-- SQL `UPDATE issue_sessions SET action_plan = ?, confidence_score = ?,
status = 'completed' WHERE devin_session_id = ?` (both the finished branch
and the completed-while-blocked branch of the monitor). -/
def updateResult (db : List SessionRecord) (sid : String)
    (plan : Option String) (conf : Option Nat) : List SessionRecord :=
  db.map fun r =>
    if r.devin_session_id == sid then
      { r with action_plan := plan, confidence_score := conf, status := "completed" }
    else r

/-- SQL `SELECT COUNT(*) FROM issue_sessions WHERE devin_session_id = ? AND
status = 'blocked'`. -/
def countBlocked (db : List SessionRecord) (sid : String) : Nat :=
  (db.filter fun r => r.devin_session_id == sid && r.status == "blocked").length

/-- SQLite AUTOINCREMENT: a fresh `id` strictly above every id in the table. -/
def nextId (db : List SessionRecord) : Nat :=
  db.foldl (fun m r => max m r.id) 0 + 1

/-- SQL `INSERT INTO issue_sessions (issue_number, issue_title, devin_session_id,
status) VALUES (?, ?, ?, ?)` in `scope_issue`: appends a fresh row, extracted
fields NULL. -/
def insertSession (db : List SessionRecord) (issue_number : Int)
    (issue_title sid status : String) : List SessionRecord :=
  db ++ [{ id := nextId db, issue_number := issue_number,
           issue_title := issue_title, devin_session_id := sid,
           action_plan := none, confidence_score := none, status := status }]

/-- SQL `INSERT OR REPLACE INTO issue_sessions (issue_number, issue_title,
devin_session_id, status) VALUES (?, ?, ?, ?)` in `resolve_issue`. The
schema in `init_db` declares no UNIQUE constraint besides the auto-assigned
`id`, which this statement does not supply, so SQLite's REPLACE conflict
clause never fires and the statement behaves exactly like a plain INSERT of
a fresh row. -/
def insertOrReplaceSession (db : List SessionRecord) (issue_number : Int)
    (issue_title sid status : String) : List SessionRecord :=
  insertSession db issue_number issue_title sid status

/-- Status of the session's row, when present (`devin_session_id` lookup). -/
def statusOf (db : List SessionRecord) (sid : String) : Option String :=
  (db.find? fun r => r.devin_session_id == sid).map fun r => r.status

/-- The two terminal statuses of the state machine. -/
def terminalStatus (s : String) : Bool := s == "completed" || s == "timeout"

/-- The statuses the recovery sweep treats as non-terminal (the literal
`status IN ('scoping', 'resolving', 'blocked')` of the lifespan query). -/
def nonterminalStatus (s : String) : Bool :=
  s == "scoping" || s == "resolving" || s == "blocked"

/-- Terminality of an optional persisted status (absent row: not terminal). -/
def terminalStatusO : Option String → Bool
  | some s => terminalStatus s
  | none => false

/-! ## Session monitor (main.py, monitor_devin_session) -/

/-- The fields of `get_session_details` the monitor reads: `status_enum`,
`messages`, `url`. -/
structure SessionDetails where
  status_enum : Option String
  messages : List Message
  url : String
deriving DecidableEq

/-- Python `status_enum.lower() if status_enum else "unknown"` (a falsy — absent or
empty — enum maps to `"unknown"`). -/
def statusOfDetails (d : SessionDetails) : String :=
  match d.status_enum with
  | some s => if s == "" then "unknown" else strLower s
  | none => "unknown"

/-- Python truthiness of the extracted `action_plan` (`None` and the empty
string are falsy). -/
def truthyPlan : Option String → Bool
  | none => false
  | some s => s != ""

/-- Python truthiness of the extracted `confidence_score` (`None` and `0`
are falsy). -/
def truthyConf : Option Nat → Bool
  | none => false
  | some n => n != 0

/-- The comment kinds `main.py` posts via `post_github_comment`. -/
inductive NoteKind
  | started
  | results
  | fallback
  | resolvedDone
  | blockedNote
  | timeoutNote
  | errorNote
deriving DecidableEq

/-- One posted comment: its template kind and the `(issue_number, repo)`
arguments passed to `post_github_comment`. -/
structure Note where
  kind : NoteKind
  issue_number : Int
  repo : String
deriving DecidableEq

/-- The environment of one poll tick: the elapsed wall-clock seconds at the
top of the loop body, the outcome of `devin_client.get_session_details`
(`none` models the call raising), and whether the tick's
`post_github_comment` call succeeds (`false` models it raising). -/
structure TickInput where
  elapsed : Nat
  fetch : Option SessionDetails
  postOk : Bool
deriving DecidableEq

/-- Loop control after one tick: continue polling, `break`, or an exception
escaping the `while` body to the outer handler (which attempts a best-effort
error comment and ends monitoring). -/
inductive TickOutcome
  | cont
  | stop
  | errored
deriving DecidableEq

/-- Result of one tick: the store afterwards, the comments posted during the
tick (successful posts, plus the outer handler's error-comment attempt), and
the loop control. -/
structure TickResult where
  db : List SessionRecord
  notes : List Note
  outcome : TickOutcome
deriving DecidableEq

/-- The body of the inner `try` of `monitor_devin_session` once
`get_session_details` returned `d`, transcribed branch by branch:
1. `finished`/`expired`: for scoping, persist the extracted pair (whatever
   it is) with status `completed`, then post the results comment when both
   plan and confidence are truthy, else the fallback comment; for resolving,
   persist `completed` and post the completion comment. A post failure is
   caught by the inner `except`, skipping the `break`, so the loop
   continues.
2. `blocked`: for scoping with a truthy extracted pair, treat as completed;
   otherwise persist `blocked`, and post the blocked comment exactly when
   the row count with `status='blocked'` for this session id equals 1.
3. Anything else: sleep and continue. -/
def tickFetched (session_type sid : String) (issue_number : Int) (repo : String)
    (d : SessionDetails) (postOk : Bool) (db : List SessionRecord) : TickResult :=
  let status := statusOfDetails d
  if status == "finished" || status == "expired" then
    if session_type == "scoping" then
      let pc := extract_action_plan_and_confidence d.messages
      let db1 := updateResult db sid pc.1 pc.2
      if postOk then
        { db := db1,
          notes := [⟨if truthyPlan pc.1 && truthyConf pc.2 then .results else .fallback,
                     issue_number, repo⟩],
          outcome := .stop }
      else { db := db1, notes := [], outcome := .cont }
    else
      let db1 := updateStatus db sid "completed"
      if postOk then
        { db := db1, notes := [⟨.resolvedDone, issue_number, repo⟩], outcome := .stop }
      else { db := db1, notes := [], outcome := .cont }
  else if status == "blocked" then
    let pc := extract_action_plan_and_confidence d.messages
    if session_type == "scoping" && truthyPlan pc.1 && truthyConf pc.2 then
      let db1 := updateResult db sid pc.1 pc.2
      if postOk then
        { db := db1, notes := [⟨.results, issue_number, repo⟩], outcome := .stop }
      else { db := db1, notes := [], outcome := .cont }
    else
      let db1 := updateStatus db sid "blocked"
      if countBlocked db1 sid == 1 then
        if postOk then
          { db := db1, notes := [⟨.blockedNote, issue_number, repo⟩], outcome := .cont }
        else { db := db1, notes := [], outcome := .cont }
      else { db := db1, notes := [], outcome := .cont }
  else { db := db, notes := [], outcome := .cont }

/-- One iteration of the `while True` body of `monitor_devin_session`:
1. `elapsed > max_wait_time` (1800) is checked first: persist `timeout`,
   post the timeout comment (a failure here is raised outside the inner
   `try` and escapes to the outer handler, which attempts a best-effort
   error comment and ends monitoring), `break`.
2. Otherwise the inner `try`: a failing fetch is swallowed and the loop
   continues; a successful fetch is handled by `tickFetched`. -/
def monitorTick (session_type sid : String) (issue_number : Int) (repo : String)
    (t : TickInput) (db : List SessionRecord) : TickResult :=
  if 1800 < t.elapsed then
    let db1 := updateStatus db sid "timeout"
    if t.postOk then
      { db := db1, notes := [⟨.timeoutNote, issue_number, repo⟩], outcome := .stop }
    else
      { db := db1, notes := [⟨.errorNote, issue_number, repo⟩], outcome := .errored }
  else
    match t.fetch with
    | none => { db := db, notes := [], outcome := .cont }
    | some d => tickFetched session_type sid issue_number repo d t.postOk db

/-- The monitor loop over a finite schedule of tick environments: runs ticks
in order, accumulating posted comments, and stops at the first tick whose
outcome is not `cont`. -/
def monitorRun (session_type sid : String) (issue_number : Int) (repo : String) :
    List TickInput → List SessionRecord → List SessionRecord × List Note
  | [], db => (db, [])
  | t :: ts, db =>
    let r := monitorTick session_type sid issue_number repo t db
    match r.outcome with
    | .cont =>
      let rest := monitorRun session_type sid issue_number repo ts r.db
      (rest.1, r.notes ++ rest.2)
    | _ => (r.db, r.notes)

/-- The sequence of store states the loop persists: one entry per executed
tick, ending early when the loop stops. -/
def monitorTrace (session_type sid : String) (issue_number : Int) (repo : String) :
    List TickInput → List SessionRecord → List (List SessionRecord)
  | [], _ => []
  | t :: ts, db =>
    let r := monitorTick session_type sid issue_number repo t db
    match r.outcome with
    | .cont => r.db :: monitorTrace session_type sid issue_number repo ts r.db
    | _ => [r.db]

/-! ## Recovery sweep (main.py, lifespan) and creation paths -/

/-- The repo `lifespan` hardcodes for every resumed monitor. -/
def recoveryRepo : String := "GoogleCloudPlatform/marketing-analytics-jumpstart"

/-- The arguments of one `asyncio.create_task(monitor_devin_session(...))`. -/
structure MonitorTask where
  session_id : String
  issue_number : Int
  repo : String
  session_type : String
deriving DecidableEq

/-- The startup sweep in `lifespan`: select every row with
`status IN ('scoping', 'resolving', 'blocked')` and start one monitor task
per row, with `repo` hardcoded and
`session_type = "scoping" if status in ['scoping', 'blocked'] else
"resolving"`. -/
def recoverySweep (db : List SessionRecord) : List MonitorTask :=
  (db.filter fun r =>
      r.status == "scoping" || r.status == "resolving" || r.status == "blocked").map
    fun r =>
      { session_id := r.devin_session_id
        issue_number := r.issue_number
        repo := recoveryRepo
        session_type :=
          if r.status == "scoping" || r.status == "blocked" then "scoping"
          else "resolving" }

/-- The `HTTPException`s the creation paths raise, by status code and detail. -/
inductive ApiError
  | configError (detail : String)
  | notFound (detail : String)
  | serverError (detail : String)
deriving DecidableEq

/-- The `detail` of the 503 raised by `scope_issue` when `devin_client` is
`None`. -/
def scopeConfigDetail : String :=
  "Devin integration is not configured. Please set the DEVIN_API_KEY environment variable to enable issue scoping."

/-- The `detail` of the 503 raised by `resolve_issue` when `devin_client` is
`None`. -/
def resolveConfigDetail : String :=
  "Devin integration is not configured. Please set the DEVIN_API_KEY environment variable to enable issue resolution."

/-- The observable effects of a successful creation request: the store
afterwards, the comments posted, and the monitor tasks scheduled. -/
structure CreateOutcome where
  db : List SessionRecord
  notes : List Note
  tasks : List MonitorTask
deriving DecidableEq

instance : DecidableEq (Except ApiError CreateOutcome) := fun a b =>
  match a, b with
  | .ok x, .ok y =>
    if h : x = y then isTrue (by rw [h]) else isFalse (by intro hc; cases hc; exact h rfl)
  | .error x, .error y =>
    if h : x = y then isTrue (by rw [h]) else isFalse (by intro hc; cases hc; exact h rfl)
  | .ok _, .error _ => isFalse (by intro hc; cases hc)
  | .error _, .ok _ => isFalse (by intro hc; cases hc)

/-- Endpoint `POST /scope-issue` (`scope_issue`): the `devin_client` configuration
check comes first, before any persistence or comment; then session creation
(`sessionResponse = none` models `create_devin_session` raising or a missing
session id), then the INSERT, the start comment, and the background monitor
task. -/
def scope_issue (devinConfigured : Bool)
    (sessionResponse : Option (String × String)) (issue_number : Int)
    (issue_title : String) (repo : String) (db : List SessionRecord) :
    Except ApiError CreateOutcome :=
  if !devinConfigured then
    .error (.configError scopeConfigDetail)
  else
    match sessionResponse with
    | none => .error (.serverError "Failed to start scoping")
    | some su =>
      let db1 := insertSession db issue_number issue_title su.1 "scoping"
      .ok { db := db1
            notes := [⟨.started, issue_number, repo⟩]
            tasks := [⟨su.1, issue_number, repo, "scoping"⟩] }

/-- Endpoint `POST /resolve-issue` (`resolve_issue`): the `devin_client` configuration
check comes first; then the GitHub issue fetch (`issueData = none` models a
non-200, raised as 404), then session creation, then the
INSERT OR REPLACE, the start comment, and the background monitor task. -/
def resolve_issue (devinConfigured : Bool) (issueData : Option String)
    (sessionResponse : Option (String × String)) (issue_number : Int)
    (repo : String) (db : List SessionRecord) : Except ApiError CreateOutcome :=
  if !devinConfigured then
    .error (.configError resolveConfigDetail)
  else
    match issueData with
    | none => .error (.notFound "Issue not found")
    | some title =>
      match sessionResponse with
      | none => .error (.serverError "Failed to start resolution")
      | some su =>
        let db1 := insertOrReplaceSession db issue_number title su.1 "resolving"
        .ok { db := db1
              notes := [⟨.started, issue_number, repo⟩]
              tasks := [⟨su.1, issue_number, repo, "resolving"⟩] }

/-! ## Concrete fixtures used by the claim theorems -/

/-- A fetch reporting remote status `blocked` with an empty transcript. -/
def blockedDetails : SessionDetails := ⟨some "blocked", [], "u"⟩

/-- A tick observing `blocked`, with the comment post succeeding. -/
def blockedTick (e : Nat) : TickInput := ⟨e, some blockedDetails, true⟩

/-- Store after the resolve path created session `S` for issue 9. -/
def c1db : List SessionRecord := insertSession [] 9 "t" "S" "resolving"

/-- A finished scoping transcript holding a plan block but no confidence
marker. -/
def c2details : SessionDetails :=
  ⟨some "finished", [⟨"devin_message", "ACTION PLAN:\nStep 1"⟩], "u"⟩

/-- Store after the scope path created session `S` for issue 5. -/
def c2db : List SessionRecord := insertSession [] 5 "t" "S" "scoping"

/-- Store already holding an active record for issue 5 (session `A`). -/
def c3db0 : List SessionRecord := insertOrReplaceSession [] 5 "t" "A" "resolving"

/-- A tick whose fetch reports `finished` but whose completion-comment post
fails. -/
def c5tickFinishedPostFail : TickInput := ⟨60, some ⟨some "finished", [], "u"⟩, false⟩

/-- Store of a resolving record whose monitor observed `blocked` once. -/
def c7db1 : List SessionRecord :=
  (monitorTick "resolving" "R" 7 "google/meridian" (blockedTick 30)
    (insertOrReplaceSession [] 7 "t" "R" "resolving")).db

/-! ## Helper lemmas about the extractor fold -/

theorem processLine_eq (st : LineState) (line : String) :
    processLine st line =
      ⟨(planStep (st.plan_started, st.plan_lines) line).1,
       (planStep (st.plan_started, st.plan_lines) line).2,
       confStep st.confidence_score line⟩ := by
  cases st with
  | mk b ls c =>
    simp only [processLine, planStep, confStep]
    by_cases h1 : isPlanMarkerLine line = true
    · simp [h1]
    · simp only [h1]
      by_cases h2 : isConfMarkerLine line = true
      · simp [h2]
      · simp only [h2]
        by_cases h3 : (b && strTrim line != "") = true
        · simp [h3]
        · simp [h3]

theorem foldl_processLine_decomp (lines : List String) :
    ∀ (b : Bool) (ls : List String) (c : Option Nat),
      lines.foldl processLine ⟨b, ls, c⟩ =
        ⟨(lines.foldl planStep (b, ls)).1,
         (lines.foldl planStep (b, ls)).2,
         lines.foldl confStep c⟩ := by
  induction lines with
  | nil => intro b ls c; rfl
  | cons l rest ih =>
    intro b ls c
    simp only [List.foldl_cons, processLine_eq]
    exact ih _ _ _

theorem confStep_decomp (c : Option Nat) (line : String) :
    confStep c line =
      match confStep none line with
      | some v => some v
      | none => c := by
  simp only [confStep]
  by_cases h1 : isPlanMarkerLine line = true
  · simp [h1]
  · simp only [h1]
    by_cases h2 : isConfMarkerLine line = true
    · simp only [h2, if_true, if_false, Bool.false_eq_true]
      cases parseConfidence line <;> simp
    · simp [h2]

theorem foldl_confStep_none (lines : List String) :
    ∀ c : Option Nat,
      lines.foldl confStep c =
        match lines.foldl confStep none with
        | some v => some v
        | none => c := by
  induction lines with
  | nil => intro c; rfl
  | cons l rest ih =>
    intro c
    simp only [List.foldl_cons]
    rw [ih (confStep c l), ih (confStep none l)]
    cases h : rest.foldl confStep none
    · simp only
      exact confStep_decomp c l
    · simp only

theorem processMessage_eq (st : ExtractState) (m : Message) :
    processMessage st m =
      ⟨if msgPlanLines m != [] then some (joinNewline (msgPlanLines m))
        else st.action_plan,
       match msgConfFresh m with
       | some v => some v
       | none => st.confidence_score⟩ := by
  by_cases hg : (m.type == "devin_message" && strContains (strUpper m.message) "ACTION PLAN:") = true
  · simp only [processMessage, msgPlanLines, msgConfFresh, hg, if_true]
    rw [foldl_processLine_decomp, foldl_confStep_none]
  · simp only [processMessage, msgPlanLines, msgConfFresh, hg, if_false]
    cases st with
    | mk a c => simp

theorem foldl_processMessage_plan (l : List Message) :
    ∀ st : ExtractState, (∀ m ∈ l, msgPlanLines m = []) →
      (l.foldl processMessage st).action_plan = st.action_plan := by
  induction l with
  | nil => intro st _; rfl
  | cons m rest ih =>
    intro st h
    simp only [List.foldl_cons]
    rw [ih _ (fun x hx => h x (List.mem_cons_of_mem m hx))]
    rw [processMessage_eq]
    have hm := h m (List.mem_cons_self m rest)
    simp [hm]

theorem foldl_processMessage_conf (l : List Message) :
    ∀ st : ExtractState, (∀ m ∈ l, msgConfFresh m = none) →
      (l.foldl processMessage st).confidence_score = st.confidence_score := by
  induction l with
  | nil => intro st _; rfl
  | cons m rest ih =>
    intro st h
    simp only [List.foldl_cons]
    rw [ih _ (fun x hx => h x (List.mem_cons_of_mem m hx))]
    rw [processMessage_eq]
    have hm := h m (List.mem_cons_self m rest)
    simp [hm]

/-! ## Helper lemmas about the store and the monitor -/

theorem statusOf_updateStatus (db : List SessionRecord) (sid s : String) :
    statusOf (updateStatus db sid s) sid = (statusOf db sid).map (fun _ => s) := by
  induction db with
  | nil => rfl
  | cons r rest ih =>
    by_cases h : r.devin_session_id = sid
    · simp [statusOf, updateStatus, List.find?_cons, h]
    · have hb : (r.devin_session_id == sid) = false := by simp [h]
      simp only [statusOf, updateStatus, List.map_cons, List.find?_cons, hb,
        Bool.false_eq_true, if_false] at ih ⊢
      exact ih

theorem monitorRun_cons (session_type sid : String) (n : Int) (repo : String)
    (t : TickInput) (ts : List TickInput) (db : List SessionRecord) :
    monitorRun session_type sid n repo (t :: ts) db =
      match (monitorTick session_type sid n repo t db).outcome with
      | .cont =>
        ((monitorRun session_type sid n repo ts (monitorTick session_type sid n repo t db).db).1,
         (monitorTick session_type sid n repo t db).notes
           ++ (monitorRun session_type sid n repo ts (monitorTick session_type sid n repo t db).db).2)
      | _ => ((monitorTick session_type sid n repo t db).db,
              (monitorTick session_type sid n repo t db).notes) := rfl

theorem monitorTrace_cons (session_type sid : String) (n : Int) (repo : String)
    (t : TickInput) (ts : List TickInput) (db : List SessionRecord) :
    monitorTrace session_type sid n repo (t :: ts) db =
      match (monitorTick session_type sid n repo t db).outcome with
      | .cont =>
        (monitorTick session_type sid n repo t db).db
          :: monitorTrace session_type sid n repo ts (monitorTick session_type sid n repo t db).db
      | _ => [(monitorTick session_type sid n repo t db).db] := rfl

theorem monitorTick_fetch_some (session_type sid : String) (n : Int) (repo : String)
    (t : TickInput) (d : SessionDetails) (db : List SessionRecord)
    (he : ¬ 1800 < t.elapsed) (hf : t.fetch = some d) :
    monitorTick session_type sid n repo t db
      = tickFetched session_type sid n repo d t.postOk db := by
  unfold monitorTick
  rw [if_neg he, hf]

theorem monitorTick_fetch_none (session_type sid : String) (n : Int) (repo : String)
    (t : TickInput) (db : List SessionRecord)
    (he : ¬ 1800 < t.elapsed) (hf : t.fetch = none) :
    monitorTick session_type sid n repo t db = ⟨db, [], .cont⟩ := by
  unfold monitorTick
  rw [if_neg he, hf]

theorem tickFetched_cont_shape (session_type sid : String) (n : Int) (repo : String)
    (d : SessionDetails) (db : List SessionRecord)
    (hc : (tickFetched session_type sid n repo d true db).outcome = .cont) :
    (tickFetched session_type sid n repo d true db).db = db
    ∨ (tickFetched session_type sid n repo d true db).db
        = updateStatus db sid "blocked" := by
  unfold tickFetched at hc ⊢
  by_cases hs : (statusOfDetails d == "finished" || statusOfDetails d == "expired") = true
  · rw [if_pos hs] at hc
    by_cases hsc : (session_type == "scoping") = true
    · rw [if_pos hsc, if_pos rfl] at hc
      exact absurd hc (by simp)
    · rw [if_neg hsc, if_pos rfl] at hc
      exact absurd hc (by simp)
  · rw [if_neg hs] at hc ⊢
    by_cases hb : (statusOfDetails d == "blocked") = true
    · rw [if_pos hb] at hc ⊢
      by_cases hx : (session_type == "scoping"
          && truthyPlan (extract_action_plan_and_confidence d.messages).1
          && truthyConf (extract_action_plan_and_confidence d.messages).2) = true
      · rw [if_pos hx, if_pos rfl] at hc
        exact absurd hc (by simp)
      · rw [if_neg hx] at hc ⊢
        by_cases hcnt : (countBlocked (updateStatus db sid "blocked") sid == 1) = true
        · rw [if_pos hcnt, if_pos rfl]
          right; rfl
        · rw [if_neg hcnt]
          right; rfl
    · rw [if_neg hb] at hc ⊢
      left; rfl

theorem monitorTick_cont_nonterminal (session_type sid : String) (n : Int)
    (repo : String) (t : TickInput) (db : List SessionRecord)
    (hpost : t.postOk = true)
    (h0 : terminalStatusO (statusOf db sid) = false)
    (hc : (monitorTick session_type sid n repo t db).outcome = .cont) :
    terminalStatusO (statusOf (monitorTick session_type sid n repo t db).db sid)
      = false := by
  by_cases he : 1800 < t.elapsed
  · unfold monitorTick at hc
    rw [if_pos he, if_pos hpost] at hc
    exact absurd hc (by simp)
  · cases hf : t.fetch with
    | none =>
      rw [monitorTick_fetch_none session_type sid n repo t db he hf]
      exact h0
    | some d =>
      rw [monitorTick_fetch_some session_type sid n repo t d db he hf] at hc ⊢
      rw [hpost] at hc ⊢
      rcases tickFetched_cont_shape session_type sid n repo d db hc with h | h
      · rw [h]; exact h0
      · rw [h, statusOf_updateStatus]
        cases statusOf db sid <;> simp [terminalStatusO, terminalStatus]

theorem tickFetched_notes_target (session_type sid : String) (n : Int)
    (repo : String) (d : SessionDetails) (p : Bool) (db : List SessionRecord) :
    ∀ note ∈ (tickFetched session_type sid n repo d p db).notes,
      note.issue_number = n ∧ note.repo = repo := by
  intro note h
  unfold tickFetched at h
  dsimp only at h
  repeat' split at h
  all_goals simp_all

theorem monitorTick_notes_target (session_type sid : String) (n : Int)
    (repo : String) (t : TickInput) (db : List SessionRecord) :
    ∀ note ∈ (monitorTick session_type sid n repo t db).notes,
      note.issue_number = n ∧ note.repo = repo := by
  intro note h
  unfold monitorTick at h
  split at h
  · split at h <;> simp_all
  · split at h
    · simp_all
    · exact tickFetched_notes_target session_type sid n repo _ t.postOk db note h

/-! ## Claim theorems -/

/-- C1: the claim says at most one "blocked" notification is ever posted per
session, and that a monitor resumed on a record already persisted as
`blocked` does not re-notify. The code violates both: after
`UPDATE ... SET status='blocked'`, the dedup query
`SELECT COUNT(*) ... AND status='blocked'` counts the session's single row
and always returns 1, so the blocked comment is posted on every `blocked`
tick. Evaluated here at the failing input: two consecutive `blocked`
observations post two blocked comments, and a run resumed on a record whose
persisted status is already `blocked` posts the blocked comment again. -/
theorem C1_blocked_renotify :
    (monitorRun "resolving" "S" 9 "google/meridian" [blockedTick 30, blockedTick 60] c1db).2
      = [⟨.blockedNote, 9, "google/meridian"⟩, ⟨.blockedNote, 9, "google/meridian"⟩]
    ∧ (monitorRun "resolving" "S" 9 "google/meridian" [blockedTick 30]
        (updateStatus c1db "S" "blocked")).2
      = [⟨.blockedNote, 9, "google/meridian"⟩] := by
  decide

/-- C2 counterexample: the claim says a partial extraction result is never
written to the store. At a `finished` scoping tick whose transcript yields a
plan but no parseable confidence, the monitor persists
`action_plan = "Step 1"` with `confidence_score = NULL` and
`status = 'completed'` — a partial result in the store. -/
theorem C2_partial_persisted_cex :
    ((monitorTick "scoping" "S" 5 "google/meridian" ⟨60, some c2details, true⟩ c2db).db.map
        fun r => (r.action_plan, r.confidence_score, r.status))
      = [(some "Step 1", none, "completed")] := by
  decide

/-- C3: the claim says a resolve request for an issue with an existing
active record replaces that record, leaving one record for the issue. The
code's `INSERT OR REPLACE` shows the intent to replace, but the `init_db`
schema has no UNIQUE constraint for the conflict clause to fire on, so the
statement inserts a second row. Evaluated at the failing input: with an
active record for issue 5 (session `A`), a resolve request creating session
`B` leaves two records for issue 5. -/
theorem C3_second_record_inserted :
    resolve_issue true (some "t") (some ("B", "u")) 5 "google/meridian" c3db0
      = .ok { db := c3db0 ++ [⟨2, 5, "t", "B", none, none, "resolving"⟩],
              notes := [⟨.started, 5, "google/meridian"⟩],
              tasks := [⟨"B", 5, "google/meridian", "resolving"⟩] }
    ∧ ((c3db0 ++ [(⟨2, 5, "t", "B", none, none, "resolving"⟩ : SessionRecord)]).filter
        (fun r => r.issue_number == 5)).length = 2 := by
  decide

/-- C4: on any tick whose elapsed wall-clock time exceeds the 1800-second
budget, the monitor persists `status = 'timeout'`, the tick's behavior is
independent of what the remote fetch would report, and (when the timeout
comment posts successfully) exactly the timeout notification is posted and
the loop stops. -/
theorem C4_timeout_precedes_fetch (session_type sid : String) (n : Int)
    (repo : String) (t : TickInput) (db : List SessionRecord)
    (h : 1800 < t.elapsed) :
    (monitorTick session_type sid n repo t db).db = updateStatus db sid "timeout"
    ∧ (∀ f, monitorTick session_type sid n repo ⟨t.elapsed, f, t.postOk⟩ db
          = monitorTick session_type sid n repo t db)
    ∧ (t.postOk = true →
        (monitorTick session_type sid n repo t db).notes = [⟨.timeoutNote, n, repo⟩]
        ∧ (monitorTick session_type sid n repo t db).outcome = .stop) := by
  refine ⟨?_, ?_, ?_⟩
  · unfold monitorTick
    rw [if_pos h]
    cases hp : t.postOk <;> simp
  · intro f
    unfold monitorTick
    rw [if_pos h, if_pos h]
  · intro hp
    unfold monitorTick
    rw [if_pos h, if_pos hp]
    exact ⟨rfl, rfl⟩

/-- Witness for C4 at a concrete over-budget tick. -/
theorem C4_timeout_precedes_fetch_witness :
    1800 < (1801 : Nat)
    ∧ (monitorTick "resolving" "S" 9 "google/meridian"
          ⟨1801, some blockedDetails, true⟩ c1db).db
        = updateStatus c1db "S" "timeout" :=
  ⟨by decide,
   (C4_timeout_precedes_fetch "resolving" "S" 9 "google/meridian"
      ⟨1801, some blockedDetails, true⟩ c1db (by decide)).1⟩

/-- C5 counterexample: the claim says that for every observation sequence,
including ones interleaved with notification-posting failures, a persisted
terminal status is never moved back to `blocked`. At the failing input —
a resolving session whose `finished` tick persists `completed` but whose
completion-comment post fails (caught by the inner `except`, so the loop
continues past the skipped `break`), followed by a `blocked` observation —
the persisted status goes `completed` then `blocked`. -/
theorem C5_terminal_regression_cex :
    (monitorTrace "resolving" "S" 9 "google/meridian"
        [c5tickFinishedPostFail, blockedTick 90] c1db).map (fun d => statusOf d "S")
      = [some "completed", some "blocked"]
    ∧ terminalStatus "completed" = true
    ∧ nonterminalStatus "blocked" = true := by
  decide

/-- C6 counterexample: the claim says every notification, including ones
posted after a recovery-sweep restart, goes to the (repo, issue number) pair
fixed at creation. The store persists no repo, and `lifespan` hardcodes the
repo for resumed monitors: a session created for issue 5 of
`google/meridian` (start comment posted there) is resumed with the hardcoded
repo, and the resumed monitor's blocked notification targets that repo, not
the creation repo. -/
theorem C6_recovery_repo_cex :
    scope_issue true (some ("S", "u")) 5 "t" "google/meridian" []
      = .ok { db := insertSession [] 5 "t" "S" "scoping",
              notes := [⟨.started, 5, "google/meridian"⟩],
              tasks := [⟨"S", 5, "google/meridian", "scoping"⟩] }
    ∧ recoverySweep (insertSession [] 5 "t" "S" "scoping")
      = [⟨"S", 5, recoveryRepo, "scoping"⟩]
    ∧ (monitorRun "scoping" "S" 5 recoveryRepo [blockedTick 30]
        (insertSession [] 5 "t" "S" "scoping")).2
      = [⟨.blockedNote, 5, recoveryRepo⟩]
    ∧ recoveryRepo ≠ "google/meridian" := by
  refine ⟨by decide, by decide, by decide, by decide⟩

/-- C7 counterexample: the claim says the recovery sweep selects scoping
versus resolving behavior from the record's kind. The store persists no
kind, and `lifespan` maps persisted status `blocked` to `session_type =
"scoping"`: a record created by the resolve path (its creation-time monitor
task carried `session_type = "resolving"`) that was persisted `blocked` is
resumed with `session_type = "scoping"`. -/
theorem C7_blocked_resolving_resumed_as_scoping_cex :
    resolve_issue true (some "t") (some ("R", "u")) 7 "google/meridian" []
      = .ok { db := insertOrReplaceSession [] 7 "t" "R" "resolving",
              notes := [⟨.started, 7, "google/meridian"⟩],
              tasks := [⟨"R", 7, "google/meridian", "resolving"⟩] }
    ∧ statusOf c7db1 "R" = some "blocked"
    ∧ recoverySweep c7db1 = [⟨"R", 7, recoveryRepo, "scoping"⟩]
    ∧ ("scoping" : String) ≠ "resolving" := by
  refine ⟨by decide, by decide, by decide, by decide⟩

/-- C9: when the Devin API key is absent (`devin_client` is `None`), both
creation paths return the 503 configuration error — a constructor distinct
from every other creation-path failure — for every gateway response and
issue fetch outcome, with no store insertion, no comment, and no scheduled
task (the error carries no `CreateOutcome`). -/
theorem C9_config_error_before_side_effects (resp : Option (String × String))
    (issueData : Option String) (n : Int) (title repo : String)
    (db : List SessionRecord) :
    scope_issue false resp n title repo db = .error (.configError scopeConfigDetail)
    ∧ resolve_issue false issueData resp n repo db
        = .error (.configError resolveConfigDetail)
    ∧ (∀ d e, ApiError.configError d ≠ ApiError.notFound e
            ∧ ApiError.configError d ≠ ApiError.serverError e) := by
  refine ⟨rfl, rfl, fun d e => ⟨fun h => ApiError.noConfusion h,
    fun h => ApiError.noConfusion h⟩⟩

/-- Witness for C9 at concrete arguments. -/
theorem C9_config_error_before_side_effects_witness :
    scope_issue false (some ("S", "u")) 5 "t" "google/meridian" []
      = .error (.configError scopeConfigDetail)
    ∧ ApiError.configError scopeConfigDetail ≠ ApiError.notFound "Issue not found" :=
  ⟨(C9_config_error_before_side_effects (some ("S", "u")) (some "t") 5 "t"
      "google/meridian" []).1,
   ((C9_config_error_before_side_effects (some ("S", "u")) (some "t") 5 "t"
      "google/meridian" []).2.2 scopeConfigDetail "Issue not found").1⟩

/-- C8: for every transcript in which agent message `m` contains a plan
block with at least one non-blank line and no later message contributes a
non-empty plan block (so `m` is the last such message), the extractor
returns `m`'s plan — a later plan block overwrites every earlier one. -/
theorem C8_last_plan_wins (l1 l2 : List Message) (m : Message)
    (hm : msgPlanLines m ≠ [])
    (hl2 : ∀ x ∈ l2, msgPlanLines x = []) :
    (extract_action_plan_and_confidence (l1 ++ m :: l2)).1
      = some (joinNewline (msgPlanLines m)) := by
  unfold extract_action_plan_and_confidence
  rw [List.foldl_append, List.foldl_cons]
  simp only
  rw [foldl_processMessage_plan l2 _ hl2, processMessage_eq]
  simp [hm]

/-- C10: for every transcript in which an earlier agent message `m1` parses
a confidence value and a strictly later agent message `m2` is the last one
with a non-empty plan block but has no parseable confidence (and no message
after `m1` parses one), the extractor returns `m2`'s plan paired with `m1`'s
confidence: a later plan block never clears a previously extracted
confidence score, so the returned pair combines fields from different
messages. -/
theorem C10_later_plan_keeps_earlier_confidence (l1 l2 l3 : List Message)
    (m1 m2 : Message) (cv : Nat)
    (h1 : msgConfFresh m1 = some cv)
    (h2p : msgPlanLines m2 ≠ [])
    (h2c : msgConfFresh m2 = none)
    (hl2 : ∀ x ∈ l2, msgConfFresh x = none)
    (hl3c : ∀ x ∈ l3, msgConfFresh x = none)
    (hl3p : ∀ x ∈ l3, msgPlanLines x = []) :
    extract_action_plan_and_confidence (l1 ++ m1 :: (l2 ++ m2 :: l3))
      = (some (joinNewline (msgPlanLines m2)), some cv) := by
  unfold extract_action_plan_and_confidence
  rw [List.foldl_append, List.foldl_cons, List.foldl_append, List.foldl_cons]
  simp only [Prod.mk.injEq]
  constructor
  · rw [foldl_processMessage_plan l3 _ hl3p, processMessage_eq]
    simp [h2p]
  · rw [foldl_processMessage_conf l3 _ hl3c, processMessage_eq, h2c]
    rw [foldl_processMessage_conf l2 _ hl2, processMessage_eq, h1]

/-- Witness for C8 on a three-message transcript: the second plan block wins
over the first. -/
theorem C8_last_plan_wins_witness :
    msgPlanLines (⟨"devin_message", "ACTION PLAN:\nNew"⟩ : Message) ≠ []
    ∧ (extract_action_plan_and_confidence
        [⟨"devin_message", "ACTION PLAN:\nOld"⟩,
         ⟨"devin_message", "ACTION PLAN:\nNew"⟩,
         ⟨"user_message", "x"⟩]).1
      = some (joinNewline (msgPlanLines ⟨"devin_message", "ACTION PLAN:\nNew"⟩)) :=
  ⟨by decide,
   C8_last_plan_wins [⟨"devin_message", "ACTION PLAN:\nOld"⟩]
     [⟨"user_message", "x"⟩] ⟨"devin_message", "ACTION PLAN:\nNew"⟩
     (by decide) (by decide)⟩

/-- Witness for C10 on a two-message transcript: the later plan-only message
supplies the plan while the earlier message's confidence (70) survives. -/
theorem C10_later_plan_keeps_earlier_confidence_witness :
    msgConfFresh (⟨"devin_message", "ACTION PLAN:\nOld\nCONFIDENCE: 70%"⟩ : Message) = some 70
    ∧ extract_action_plan_and_confidence
        [⟨"devin_message", "ACTION PLAN:\nOld\nCONFIDENCE: 70%"⟩,
         ⟨"devin_message", "ACTION PLAN:\nNew"⟩]
      = (some (joinNewline (msgPlanLines ⟨"devin_message", "ACTION PLAN:\nNew"⟩)), some 70) :=
  ⟨by decide,
   C10_later_plan_keeps_earlier_confidence [] [] []
     ⟨"devin_message", "ACTION PLAN:\nOld\nCONFIDENCE: 70%"⟩
     ⟨"devin_message", "ACTION PLAN:\nNew"⟩ 70
     (by decide) (by decide) (by decide) (by decide) (by decide) (by decide)⟩

/-- C5 amended: for runs in which every notification post succeeds and the
record's persisted status at monitor start is non-terminal, once a trace
entry persists a terminal status no later entry changes it — in particular
it never returns to `scoping`/`resolving`/`blocked`. (Without the posting
proviso the original claim fails: see the counterexample, where a failed
completion post lets a later Blocked observation regress a Completed
record.) -/
theorem C5_amended_mono (session_type sid : String) (n : Int)
    (repo : String) (ticks : List TickInput) (db0 : List SessionRecord)
    (hpost : ∀ t ∈ ticks, t.postOk = true)
    (h0 : terminalStatusO (statusOf db0 sid) = false) :
    ∀ i j : Nat, i ≤ j →
      j < (monitorTrace session_type sid n repo ticks db0).length →
      terminalStatusO
          (statusOf ((monitorTrace session_type sid n repo ticks db0).getD i []) sid)
        = true →
      statusOf ((monitorTrace session_type sid n repo ticks db0).getD j []) sid
        = statusOf ((monitorTrace session_type sid n repo ticks db0).getD i []) sid := by
  induction ticks generalizing db0 with
  | nil =>
    intro i j hij hj hterm
    simp [monitorTrace] at hj
  | cons t ts ih =>
    intro i j hij hj hterm
    rw [monitorTrace_cons] at hj hterm ⊢
    cases ho : (monitorTick session_type sid n repo t db0).outcome with
    | cont =>
      simp only [ho] at hj hterm ⊢
      cases i with
      | zero =>
        have hnt := monitorTick_cont_nonterminal session_type sid n repo t db0
          (hpost t (List.mem_cons_self t ts)) h0 ho
        simp only [List.getD_cons_zero] at hterm
        rw [hnt] at hterm
        exact absurd hterm (by simp)
      | succ i2 =>
        cases j with
        | zero => omega
        | succ j2 =>
          simp only [List.getD_cons_succ] at hterm ⊢
          have hnt := monitorTick_cont_nonterminal session_type sid n repo t db0
            (hpost t (List.mem_cons_self t ts)) h0 ho
          refine ih _ (fun x hx => hpost x (List.mem_cons_of_mem t hx)) hnt i2 j2
            (by omega) ?_ hterm
          simp only [List.length_cons] at hj
          omega
    | stop =>
      simp only [ho] at hj hterm ⊢
      simp only [List.length_cons, List.length_nil] at hj
      have hj0 : j = 0 := by omega
      have hi0 : i = 0 := by omega
      subst hj0; subst hi0
      rfl
    | errored =>
      simp only [ho] at hj hterm ⊢
      simp only [List.length_cons, List.length_nil] at hj
      have hj0 : j = 0 := by omega
      have hi0 : i = 0 := by omega
      subst hj0; subst hi0
      rfl

/-- C6 amended: within a single monitor run, every notification posted goes
to the (issue number, repo) pair the monitor task was started with — for
creation-path monitors that is the creation issue_ref. (The store persists
no repo and the recovery sweep hardcodes one, so across a restart the
original claim fails: see the counterexample.) -/
theorem C6_amended_notes_target (session_type sid : String) (n : Int)
    (repo : String) (ticks : List TickInput) (db : List SessionRecord) :
    ∀ note ∈ (monitorRun session_type sid n repo ticks db).2,
      note.issue_number = n ∧ note.repo = repo := by
  induction ticks generalizing db with
  | nil => intro note h; simp [monitorRun] at h
  | cons t ts ih =>
    intro note h
    rw [monitorRun_cons] at h
    cases ho : (monitorTick session_type sid n repo t db).outcome with
    | cont =>
      simp only [ho] at h
      rcases List.mem_append.mp h with h1 | h2
      · exact monitorTick_notes_target session_type sid n repo t db note h1
      · exact ih _ note h2
    | stop =>
      simp only [ho] at h
      exact monitorTick_notes_target session_type sid n repo t db note h
    | errored =>
      simp only [ho] at h
      exact monitorTick_notes_target session_type sid n repo t db note h

/-- C7 amended: the recovery sweep starts exactly one monitor task per
record whose persisted status is non-terminal and none for
`completed`/`timeout` records, and selects scoping-versus-resolving behavior
from the persisted status — `scoping` and `blocked` resume with scoping
behavior, `resolving` with resolving behavior (kind is not persisted, so a
Blocked record from the resolve path resumes with scoping behavior: see the
counterexample). -/
theorem C7_amended_sweep (db : List SessionRecord) :
    (recoverySweep db).length
      = (db.filter fun r => nonterminalStatus r.status).length
    ∧ (∀ r ∈ db, nonterminalStatus r.status = true →
        (⟨r.devin_session_id, r.issue_number, recoveryRepo,
          if r.status == "scoping" || r.status == "blocked" then "scoping"
          else "resolving"⟩ : MonitorTask) ∈ recoverySweep db)
    ∧ (∀ tk ∈ recoverySweep db, ∃ r, r ∈ db ∧ nonterminalStatus r.status = true
        ∧ tk = ⟨r.devin_session_id, r.issue_number, recoveryRepo,
            if r.status == "scoping" || r.status == "blocked" then "scoping"
            else "resolving"⟩) := by
  refine ⟨?_, ?_, ?_⟩
  · simp [recoverySweep, nonterminalStatus]
  · intro r hr hnt
    simp only [recoverySweep, List.mem_map]
    refine ⟨r, ?_, rfl⟩
    rw [List.mem_filter]
    exact ⟨hr, by simpa [nonterminalStatus] using hnt⟩
  · intro tk htk
    simp only [recoverySweep, List.mem_map] at htk
    obtain ⟨r, hrf, hrtk⟩ := htk
    rw [List.mem_filter] at hrf
    exact ⟨r, hrf.1, by simpa [nonterminalStatus] using hrf.2, hrtk.symm⟩

/-- C2 amended: on a Terminal-success tick of a Scoping monitor, the store
receives `status = 'completed'` together with exactly the pair the extractor
returned — including partial pairs (a plan with no confidence, or a
confidence with no plan); only the choice of results-versus-fallback comment
is gated on both fields being truthy. -/
theorem C2_amended_persist (sid : String) (n : Int) (repo : String)
    (t : TickInput) (d : SessionDetails) (db : List SessionRecord)
    (he : ¬ 1800 < t.elapsed)
    (hf : t.fetch = some d)
    (hs : (statusOfDetails d == "finished" || statusOfDetails d == "expired") = true) :
    (monitorTick "scoping" sid n repo t db).db
      = updateResult db sid (extract_action_plan_and_confidence d.messages).1
          (extract_action_plan_and_confidence d.messages).2
    ∧ (t.postOk = true →
        (monitorTick "scoping" sid n repo t db).notes
          = [⟨if truthyPlan (extract_action_plan_and_confidence d.messages).1
                && truthyConf (extract_action_plan_and_confidence d.messages).2
              then .results else .fallback, n, repo⟩]) := by
  rw [monitorTick_fetch_some "scoping" sid n repo t d db he hf]
  unfold tickFetched
  have hsc : (("scoping" == "scoping") : Bool) = true := rfl
  simp only [hs, hsc, eq_self_iff_true, if_true]
  cases hp : t.postOk
  · refine ⟨?_, ?_⟩ <;> simp [hp]
  · refine ⟨?_, ?_⟩ <;> simp [hp]

/-- Witness for C2 amended at the plan-only `finished` fixture. -/
theorem C2_amended_persist_witness :
    (monitorTick "scoping" "S" 5 "google/meridian" ⟨60, some c2details, true⟩ c2db).db
      = updateResult c2db "S"
          (extract_action_plan_and_confidence c2details.messages).1
          (extract_action_plan_and_confidence c2details.messages).2 :=
  (C2_amended_persist "S" 5 "google/meridian" ⟨60, some c2details, true⟩ c2details
    c2db (by decide) rfl (by decide)).1

/-- Witness for C5 amended on a blocked-then-finished resolving run whose
posts all succeed: the terminal entry (index 1) stays itself. -/
theorem C5_amended_mono_witness :
    terminalStatusO (statusOf c1db "S") = false
    ∧ statusOf ((monitorTrace "resolving" "S" 9 "google/meridian"
          [blockedTick 30, ⟨90, some ⟨some "finished", [], "u"⟩, true⟩]
          c1db).getD 1 []) "S"
      = statusOf ((monitorTrace "resolving" "S" 9 "google/meridian"
          [blockedTick 30, ⟨90, some ⟨some "finished", [], "u"⟩, true⟩]
          c1db).getD 1 []) "S" :=
  ⟨by decide,
   C5_amended_mono "resolving" "S" 9 "google/meridian"
     [blockedTick 30, ⟨90, some ⟨some "finished", [], "u"⟩, true⟩] c1db
     (by decide) (by decide) 1 1 (le_refl 1) (by decide) (by decide)⟩

/-- Witness for C6 amended: the blocked note of a concrete resumed run
carries the issue number and repo the monitor was started with. -/
theorem C6_amended_notes_target_witness :
    (⟨NoteKind.blockedNote, 5, recoveryRepo⟩ : Note).issue_number = 5
    ∧ (⟨NoteKind.blockedNote, 5, recoveryRepo⟩ : Note).repo = recoveryRepo :=
  C6_amended_notes_target "scoping" "S" 5 recoveryRepo [blockedTick 30] c2db
    ⟨NoteKind.blockedNote, 5, recoveryRepo⟩ (by decide)

/-- Witness for C7 amended: the blocked record of `c7db1` yields its one
(scoping-typed) task in the sweep. -/
theorem C7_amended_sweep_witness :
    (⟨"R", 7, recoveryRepo, "scoping"⟩ : MonitorTask) ∈ recoverySweep c7db1 :=
  (C7_amended_sweep c7db1).2.1 ⟨1, 7, "t", "R", none, none, "blocked"⟩
    (by decide) (by decide)

end DevinDemo
